import Mathlib

/-!
Shallow embedding of src/python-module-to-anki.py and verification of the
specification claims about it.

Modelling conventions:
* JSON values are modelled by the inductive type JValue; JSON numbers are
  modelled as integers (the program only ever meets integer note ids and the
  literal version 6, never a float).
* a decoded JSON object (a Python dict produced by json.loads) is modelled as
  an association list of key/value pairs in insertion order; Python dict
  membership and indexing are modelled by List.lookup and len by List.length.
* a parsed HTML node (bs4) is modelled by BsNode: either an element (Tag,
  with a name and the list of its contents) or a text node; str on a node is
  modelled structurally by render (tag attributes are not modelled, they play
  no role in any claim).
* side effects (HTTP GET, HTTP POST to AnkiConnect, reading config.json,
  printing) are modelled as an explicit trace of Event values; the outside
  world (HTTP responses, parse results, the config file contents) is an Env
  record of response oracles.  An effectful Python function becomes a Lean
  function returning (trace, Except String result): Except.error models an
  uncaught Python exception carrying str(e).
* the temporary file used to hold the response body during parsing is a
  resource-management detail with no observable effect on the values computed
  and is not modelled; likewise json.loads failures on non-JSON bodies are
  outside the model (POST response bodies are given to the model already
  decoded).
-/

namespace PythonModuleToAnki

/-- JSON value, as decoded by json.loads / encoded by json.dumps.  Numbers are
modelled as integers. -/
inductive JValue where
  | null
  | bool (b : Bool)
  | num (n : Int)
  | str (s : String)
  | arr (xs : List JValue)
  | obj (kvs : List (String × JValue))

/- Python str() of a decoded JSON value that appears inside a repr of a
container (Python repr): strings are quoted with single quotes. -/
mutual

def jvalueRepr : JValue → String
  | JValue.null => "None"
  | JValue.bool true => "True"
  | JValue.bool false => "False"
  | JValue.num n => toString n
  | JValue.str s => "\x27" ++ s ++ "\x27"
  | JValue.arr xs => "[" ++ jvalueReprList xs ++ "]"
  | JValue.obj kvs => "\x7b" ++ jvalueReprObj kvs ++ "\x7d"

def jvalueReprList : List JValue → String
  | [] => ""
  | [x] => jvalueRepr x
  | x :: xs => jvalueRepr x ++ ", " ++ jvalueReprList xs

def jvalueReprObj : List (String × JValue) → String
  | [] => ""
  | [(k, v)] => "\x27" ++ k ++ "\x27: " ++ jvalueRepr v
  | (k, v) :: kvs => "\x27" ++ k ++ "\x27: " ++ jvalueRepr v ++ ", " ++ jvalueReprObj kvs

end

/-- Python str() of a decoded JSON value (used by the program for
str(note_id) and for the message of Exception(error-value)): a string is
itself, anything else is its repr. -/
def jvalueStr : JValue → String
  | JValue.str s => s
  | v => jvalueRepr v

/-- True exactly on the JSON null value (the decoded Python None, as tested
by the source with an is-None check). -/
def isNull : JValue → Bool
  | JValue.null => true
  | _ => false

/-- JSON string escaping used by json.dumps (backslash and double quote;
control-character escapes are not modelled, no string of the program contains
control characters). -/
def escapeJsonChar (c : Char) : String :=
  if c = '\\' then "\\\\" else if c = '\"' then "\\\"" else String.singleton c

/-- Escape a whole string for json.dumps. -/
def escapeJson (s : String) : String :=
  String.join (List.map escapeJsonChar s.toList)

/- Serialization of a JValue as produced by json.dumps with default
separators. -/
mutual

def jsonDumps : JValue → String
  | JValue.null => "null"
  | JValue.bool true => "true"
  | JValue.bool false => "false"
  | JValue.num n => toString n
  | JValue.str s => "\"" ++ escapeJson s ++ "\""
  | JValue.arr xs => "[" ++ jsonDumpsList xs ++ "]"
  | JValue.obj kvs => "\x7b" ++ jsonDumpsObj kvs ++ "\x7d"

def jsonDumpsList : List JValue → String
  | [] => ""
  | [x] => jsonDumps x
  | x :: xs => jsonDumps x ++ ", " ++ jsonDumpsList xs

def jsonDumpsObj : List (String × JValue) → String
  | [] => ""
  | [(k, v)] => "\"" ++ escapeJson k ++ "\": " ++ jsonDumps v
  | (k, v) :: kvs => "\"" ++ escapeJson k ++ "\": " ++ jsonDumps v ++ ", " ++ jsonDumpsObj kvs

end

/-- Parsed HTML node as produced by BeautifulSoup: an element with a tag name
and child contents, or a text node. -/
inductive BsNode where
  | text (s : String)
  | tag (name : String) (children : List BsNode)

/- Python str() of a bs4 node: a text node is its text, an element renders
its markup with its rendered children between the opening and closing tag
(attributes are not modelled). -/
mutual

def render : BsNode → String
  | BsNode.text s => s
  | BsNode.tag name children => "<" ++ name ++ ">" ++ renderList children ++ "</" ++ name ++ ">"

def renderList : List BsNode → String
  | [] => ""
  | c :: cs => render c ++ renderList cs

end

/-- Contents of config.json once decoded: the five required keys of the
configuration file.  Field names map the JSON keys anki-connect-url,
anki-deck, anki-model, hint-synopsis, tags-synopsis. -/
structure Config where
  ankiConnectUrl : String
  ankiDeck : String
  ankiModel : String
  hintSynopsis : String
  tagsSynopsis : List String

/-- Observable effect of one step of the program: reading config.json, an
HTTP GET of a documentation page, a printed line, or an HTTP POST to the
AnkiConnect endpoint (recorded with the url, the action and the params object
of the request envelope; the body string sent is get_anki_connect_request of
these, see get_anki_connect_request below). -/
inductive Event where
  | readConfig
  | httpGet (url : String)
  | printLine (s : String)
  | post (url : String) (action : String) (params : List (String × JValue))

/-- Environment the program runs against: the decoded config file, the
outcome of requests.get on a documentation url (Except.error e models a
response whose raise_for_status raises an exception with text e, Except.ok
body a successful response body), the first h1 of the parsed body
(soup.find of h1: none when absent), the outcome of raise_for_status on a
POST response (none means success, some e an exception text, which the code
only prints), and the decoded JSON object of the POST response text. -/
structure Env where
  config : Config
  getResp : String → Except String String
  findH1 : String → Option BsNode
  postStatus : String → String → List (String × JValue) → Option String
  postBody : String → String → List (String × JValue) → List (String × JValue)

/-- Embedding of get_config: opens and decodes config.json (one readConfig
event) and returns the decoded configuration. -/
def get_config (env : Env) : List Event × Config :=
  ([Event.readConfig], env.config)

/-- Request envelope object built by get_anki_connect_request before
serialization. -/
def ankiConnectRequest (action : String) (params : List (String × JValue)) :
    List (String × JValue) :=
  [("action", JValue.str action), ("version", JValue.num 6), ("params", JValue.obj params)]

/-- Embedding of get_anki_connect_request: serializes the envelope object as
json.dumps does. -/
def get_anki_connect_request (action : String) (params : List (String × JValue)) : String :=
  jsonDumps (JValue.obj (ankiConnectRequest action params))

/-- Validation and unwrapping of the decoded AnkiConnect response object
performed by invoke_anki_connect after json.loads: the four checks of the
source in order (field count, presence of error, presence of result,
nullness of error), then the result value. -/
def invokeDecode (tbl : List (String × JValue)) : Except String JValue :=
  if tbl.length ≠ 2 then
    Except.error "response has an unexpected number of fields"
  else
    match List.lookup "error" tbl, List.lookup "result" tbl with
    | none, _ => Except.error "response is missing required error field"
    | _, none => Except.error "response is missing required result field"
    | some e, some r =>
      if isNull e = false then Except.error (jvalueStr e) else Except.ok r

/-- Embedding of invoke_anki_connect: POST the request envelope, print (and
only print) a message if raise_for_status raises, then decode and validate
the response object. -/
def invoke_anki_connect (env : Env) (url : String) (action : String)
    (params : List (String × JValue)) : List Event × Except String JValue :=
  (Event.post url action params ::
     (match env.postStatus url action params with
      | none => []
      | some e => [Event.printLine ("Error getting response from AnkiConnect: " ++ e)]),
   invokeDecode (env.postBody url action params))

/-- Embedding of add_anki_note: builds the note object and invokes the
addNote action with it as the single params entry. -/
def add_anki_note (env : Env) (anki_connect_url : String) (anki_deck : String)
    (anki_model : String) (fields : List (String × String)) (tags : List String) :
    List Event × Except String JValue :=
  invoke_anki_connect env anki_connect_url "addNote"
    [("note", JValue.obj
       [("deckName", JValue.str anki_deck),
        ("modelName", JValue.str anki_model),
        ("fields", JValue.obj (List.map (fun p => (p.1, JValue.str p.2)) fields)),
        ("tags", JValue.arr (List.map JValue.str tags))])]

/-- Embedding of add_synopsis_anki_note: reads the config, then adds a note
with the six literal fields and the configured tags. -/
def add_synopsis_anki_note (env : Env) (synopsis : String) (module : String)
    (link : String) : List Event × Except String JValue :=
  let config := (get_config env).2
  let r := add_anki_note env config.ankiConnectUrl config.ankiDeck config.ankiModel
    [("Front", synopsis),
     ("Back", module),
     ("Hint", config.hintSynopsis),
     ("Back Extra", ""),
     ("Links", link),
     ("Reverse", "")]
    config.tagsSynopsis
  ((get_config env).1 ++ r.1, r.2)

/-- Embedding of get_synopsis: requires the first h1 to be an element node
(bs4.Tag), takes its contents with first and last child removed, joins their
str renderings, and drops the first three characters. -/
def get_synopsis (h1 : Option BsNode) : Except String String :=
  match h1 with
  | some (BsNode.tag _ children) =>
    Except.ok (String.drop (String.join (List.map render (List.dropLast (List.drop 1 children)))) 3)
  | _ => Except.error "h1 should be an instance of bs4.Tag"

/-- Documentation URL built by create_synopsis_note. -/
def docsUrl (python_version : Int) (module : String) : String :=
  "https://docs.python.org/" ++ toString python_version ++ "/library/" ++ module ++ ".html"

/-- Embedding of create_synopsis_note: GET the docs page; on a raised
HTTP-status error print a diagnostic and return None (skip); otherwise parse
the body, extract the synopsis (propagating its exception) and submit the
note, returning its id. -/
def create_synopsis_note (env : Env) (module : String) (python_version : Int) :
    List Event × Except String (Option JValue) :=
  match env.getResp (docsUrl python_version module) with
  | Except.error e =>
    ([Event.httpGet (docsUrl python_version module),
      Event.printLine ("Failed to get docs for " ++ module ++ ": " ++ e)],
     Except.ok none)
  | Except.ok body =>
    match get_synopsis (env.findH1 body) with
    | Except.error e => ([Event.httpGet (docsUrl python_version module)], Except.error e)
    | Except.ok syn =>
      (Event.httpGet (docsUrl python_version module) ::
         (add_synopsis_anki_note env syn module (docsUrl python_version module)).1,
       Except.map some (add_synopsis_anki_note env syn module (docsUrl python_version module)).2)

/-- Embedding of gui_browse_notes: reads the config and invokes guiBrowse
with the nid: query built from the comma-joined str of the note ids. -/
def gui_browse_notes (env : Env) (note_ids : List JValue) :
    List Event × Except String JValue :=
  let config := (get_config env).2
  let r := invoke_anki_connect env config.ankiConnectUrl "guiBrowse"
    [("query", JValue.str ("nid:" ++ String.intercalate "," (List.map jvalueStr note_ids)))]
  ((get_config env).1 ++ r.1, r.2)

/-- Embedding of the for-loop of main: processes the remaining module names
with the accumulated note_ids list; a create_synopsis_note exception aborts
the loop, a None result skips the module, an id is announced on stdout and
appended. -/
def mainLoop (env : Env) (python_version : Int) :
    List String → List JValue → List Event × Except String (List JValue)
  | [], note_ids => ([], Except.ok note_ids)
  | module :: rest, note_ids =>
    match (create_synopsis_note env module python_version).2 with
    | Except.error e => ((create_synopsis_note env module python_version).1, Except.error e)
    | Except.ok none =>
      ((create_synopsis_note env module python_version).1 ++
         (mainLoop env python_version rest note_ids).1,
       (mainLoop env python_version rest note_ids).2)
    | Except.ok (some id) =>
      ((create_synopsis_note env module python_version).1 ++
         Event.printLine ("Added synopsis note for " ++ module ++ ": " ++ jvalueStr id) ::
           (mainLoop env python_version rest (note_ids ++ [id])).1,
       (mainLoop env python_version rest (note_ids ++ [id])).2)

/-- Embedding of main on already-parsed arguments: run the module loop
starting from an empty accumulator, then browse the accumulated ids; returns
exit status 0 when it reaches the end. -/
def main (env : Env) (modules : List String) (python_version : Int) :
    List Event × Except String Int :=
  match (mainLoop env python_version modules []).2 with
  | Except.error e => ((mainLoop env python_version modules []).1, Except.error e)
  | Except.ok ids =>
    ((mainLoop env python_version modules []).1 ++ (gui_browse_notes env ids).1,
     Except.map (fun _ => (0 : Int)) (gui_browse_notes env ids).2)

/-- True exactly on the readConfig event. -/
def isReadConfig : Event → Bool
  | Event.readConfig => true
  | _ => false

/-- True exactly on a POST whose action is guiBrowse. -/
def isGuiBrowsePost : Event → Bool
  | Event.post _ action _ => action == "guiBrowse"
  | _ => false

/-- Sample configuration used by concrete test environments. -/
def cfgW : Config :=
  ⟨"http://localhost:8765", "Deck", "Model", "hint", ["python", "stdlib"]⟩

/-- Sample well-formed documentation heading: three children whose middle
child carries the synopsis text behind a three-character separator. -/
def h1W : BsNode :=
  BsNode.tag "h1" [BsNode.text "x", BsNode.text " - a synopsis", BsNode.text "y"]

/-- Environment in which every fetch, parse and AnkiConnect call succeeds
and addNote always returns note id 101. -/
def envOk : Env :=
  ⟨cfgW, fun _ => Except.ok "page", fun _ => some h1W, fun _ _ _ => none,
   fun _ _ _ => [("error", JValue.null), ("result", JValue.num 101)]⟩

/-- Environment in which every documentation fetch fails with an HTTP status
error. -/
def envFetchFail : Env :=
  ⟨cfgW, fun _ => Except.error "404 Client Error", fun _ => none, fun _ _ _ => none,
   fun _ _ _ => [("error", JValue.null), ("result", JValue.null)]⟩

/-- Environment in which fetching and parsing succeed but AnkiConnect
reports an application error on addNote. -/
def envSubFail : Env :=
  ⟨cfgW, fun _ => Except.ok "page", fun _ => some h1W, fun _ _ _ => none,
   fun _ action _ =>
     if action == "addNote" then
       [("error", JValue.str "duplicate"), ("result", JValue.null)]
     else
       [("error", JValue.null), ("result", JValue.null)]⟩

/-- Environment in which the POST transport reports a status error while the
response body is a valid success envelope. -/
def envStatusErr : Env :=
  ⟨cfgW, fun _ => Except.ok "page", fun _ => some h1W, fun _ _ _ => some "500 Server Error",
   fun _ _ _ => [("error", JValue.null), ("result", JValue.num 7)]⟩

lemma isNull_iff (v : JValue) : isNull v = true ↔ v = JValue.null := by
  cases v <;> simp [isNull]

lemma lookup_isSome_iff (k : String) (tbl : List (String × JValue)) :
    (List.lookup k tbl).isSome = true ↔ k ∈ List.map Prod.fst tbl := by
  induction tbl with
  | nil => simp
  | cons kv rest ih =>
    rcases kv with ⟨a, v⟩
    cases h : (k == a) with
    | true =>
      have hk : k = a := by simpa using h
      subst hk
      simp [List.lookup]
    | false =>
      have hk : ¬ k = a := by simpa using h
      simp [List.lookup, h, ih, hk]

lemma invokeDecode_ok (tbl : List (String × JValue)) (r : JValue)
    (hlen : tbl.length = 2) (hE : List.lookup "error" tbl = some JValue.null)
    (hR : List.lookup "result" tbl = some r) : invokeDecode tbl = Except.ok r := by
  simp [invokeDecode, hlen, hE, hR, isNull]

lemma invokeDecode_err (tbl : List (String × JValue)) (v r : JValue)
    (hlen : tbl.length = 2) (hE : List.lookup "error" tbl = some v)
    (hR : List.lookup "result" tbl = some r) (hv : v ≠ JValue.null) :
    invokeDecode tbl = Except.error (jvalueStr v) := by
  have hb : isNull v = false := by
    rw [← Bool.not_eq_true, isNull_iff]
    exact hv
  simp [invokeDecode, hlen, hE, hR, hb]

lemma perm_facts (tbl : List (String × JValue))
    (hperm : (List.map Prod.fst tbl).Perm ["error", "result"]) :
    tbl.length = 2 ∧ (List.lookup "error" tbl).isSome = true ∧
      (List.lookup "result" tbl).isSome = true := by
  have hlen : tbl.length = 2 := by
    have h := hperm.length_eq
    simpa using h
  have he : "error" ∈ List.map Prod.fst tbl := hperm.mem_iff.mpr (by simp)
  have hr : "result" ∈ List.map Prod.fst tbl := hperm.mem_iff.mpr (by simp)
  exact ⟨hlen, (lookup_isSome_iff _ _).mpr he, (lookup_isSome_iff _ _).mpr hr⟩

lemma keys_perm_of (tbl : List (String × JValue))
    (hnd : (List.map Prod.fst tbl).Nodup) (hlen : tbl.length = 2)
    (he : "error" ∈ List.map Prod.fst tbl) (hr : "result" ∈ List.map Prod.fst tbl) :
    (List.map Prod.fst tbl).Perm ["error", "result"] := by
  have hlen2 : (List.map Prod.fst tbl).length = 2 := by simp [hlen]
  obtain ⟨a, b, hab⟩ := List.length_eq_two.mp hlen2
  rw [hab] at he hr hnd ⊢
  have hne : a ≠ b := by
    simpa using hnd
  simp only [List.mem_cons, List.mem_singleton, List.not_mem_nil, or_false] at he hr
  rcases he with he | he <;> rcases hr with hr | hr
  · exact absurd (he.trans hr.symm) (by decide)
  · rw [← he, ← hr]
  · rw [← he, ← hr]
    exact List.Perm.swap "error" "result" []
  · exact absurd (he.trans hr.symm) (by decide)

/-- C1: for every parsed document, if the first h1 is absent or not an
element node then get_synopsis raises the parse-structure error; if it is an
element node, the result is the concatenation of the str renderings of its
child contents with the first and last child removed, with the first three
characters dropped (stated both with the slice as written and with an
explicit first/middle/last decomposition). -/
theorem get_synopsis_contract (h1 : Option BsNode) :
    ((∀ name children, h1 ≠ some (BsNode.tag name children)) →
       get_synopsis h1 = Except.error "h1 should be an instance of bs4.Tag") ∧
    (∀ name children, h1 = some (BsNode.tag name children) →
       get_synopsis h1 =
         Except.ok (String.drop
           (String.join (List.map render (List.dropLast (List.drop 1 children)))) 3)) ∧
    (∀ name first mid last, h1 = some (BsNode.tag name (first :: (mid ++ [last]))) →
       get_synopsis h1 = Except.ok (String.drop (String.join (List.map render mid)) 3)) := by
  refine ⟨?_, ?_, ?_⟩
  · intro h
    cases h1 with
    | none => rfl
    | some node =>
      cases node with
      | text s => rfl
      | tag n c => exact absurd rfl (h n c)
  · intro name children h
    subst h
    rfl
  · intro name first mid last h
    subst h
    simp [get_synopsis, List.dropLast_concat]

/-- C1 witness: the extractor fails on a document with no h1 and, on a
concrete three-child heading, returns the middle child's rendering without
its first three characters. -/
theorem get_synopsis_contract_witness :
    get_synopsis none = Except.error "h1 should be an instance of bs4.Tag" ∧
    get_synopsis (some (BsNode.tag "h1"
      [BsNode.text "x", BsNode.text "abcdef", BsNode.text "y"])) = Except.ok "def" := by
  constructor
  · exact (get_synopsis_contract none).1 (fun name children h => Option.noConfusion h)
  · have h := (get_synopsis_contract (some (BsNode.tag "h1"
      [BsNode.text "x", BsNode.text "abcdef", BsNode.text "y"]))).2.2 "h1"
      (BsNode.text "x") [BsNode.text "abcdef"] (BsNode.text "y") rfl
    rw [h]
    rfl

/-- C10: a first h1 that is an element node with two or fewer children does
not make the extractor raise: the synopsis is the empty string. -/
theorem get_synopsis_short_heading (name : String) (children : List BsNode)
    (h : children.length ≤ 2) :
    get_synopsis (some (BsNode.tag name children)) = Except.ok "" := by
  rcases children with _ | ⟨a, _ | ⟨b, _ | ⟨c, rest⟩⟩⟩
  · rfl
  · rfl
  · rfl
  · exfalso
    simp only [List.length_cons] at h
    omega

/-- C10 witness: a single-child heading extracts the empty synopsis. -/
theorem get_synopsis_short_heading_witness :
    get_synopsis (some (BsNode.tag "h1" [BsNode.text "x"])) = Except.ok "" :=
  get_synopsis_short_heading "h1" [BsNode.text "x"] (by decide)

/-- C5: for every action and parameter mapping, the request envelope has
exactly the three top-level keys action, version and params, the version
value is the integer 6, and get_anki_connect_request is its json.dumps
serialization. -/
theorem request_envelope_shape (action : String) (params : List (String × JValue)) :
    List.map Prod.fst (ankiConnectRequest action params) = ["action", "version", "params"] ∧
    (ankiConnectRequest action params).length = 3 ∧
    List.lookup "version" (ankiConnectRequest action params) = some (JValue.num 6) ∧
    get_anki_connect_request action params =
      jsonDumps (JValue.obj (ankiConnectRequest action params)) :=
  ⟨rfl, rfl, rfl, rfl⟩

/-- C2: for a decoded response object (distinct keys, as json.loads
produces), invoke fails exactly when the keys are not precisely error and
result or the error value is non-null; with the right shape, a non-null
error value makes it fail with str of that value (the text itself when it is
a string) and never return a result, and a null error value makes it return
the result value. -/
theorem invoke_response_envelope (tbl : List (String × JValue))
    (hnd : (List.map Prod.fst tbl).Nodup) :
    ((∃ e, invokeDecode tbl = Except.error e) ↔
       ¬ (List.map Prod.fst tbl).Perm ["error", "result"] ∨
         ∃ v, List.lookup "error" tbl = some v ∧ v ≠ JValue.null) ∧
    (∀ v, (List.map Prod.fst tbl).Perm ["error", "result"] →
       List.lookup "error" tbl = some v → v ≠ JValue.null →
       invokeDecode tbl = Except.error (jvalueStr v) ∧
         ∀ r, invokeDecode tbl ≠ Except.ok r) ∧
    (∀ s, List.lookup "error" tbl = some (JValue.str s) → jvalueStr (JValue.str s) = s) ∧
    (∀ r, (List.map Prod.fst tbl).Perm ["error", "result"] →
       List.lookup "error" tbl = some JValue.null →
       List.lookup "result" tbl = some r →
       invokeDecode tbl = Except.ok r) := by
  by_cases hlen : tbl.length = 2
  · rcases hE : List.lookup "error" tbl with _ | v
    · have hmem : "error" ∉ List.map Prod.fst tbl := by
        rw [← lookup_isSome_iff]
        simp [hE]
      have hnp : ¬ (List.map Prod.fst tbl).Perm ["error", "result"] := by
        intro hperm
        exact hmem (hperm.mem_iff.mpr (by simp))
      refine ⟨?_, ?_, ?_, ?_⟩
      · constructor
        · intro _
          exact Or.inl hnp
        · intro _
          exact ⟨"response is missing required error field", by simp [invokeDecode, hlen, hE]⟩
      · intro v hperm
        exact absurd hperm hnp
      · intro s hs
        exact absurd hs (by simp [hE])
      · intro r hperm
        exact absurd hperm hnp
    · rcases hR : List.lookup "result" tbl with _ | r
      · have hmem : "result" ∉ List.map Prod.fst tbl := by
          rw [← lookup_isSome_iff]
          simp [hR]
        have hnp : ¬ (List.map Prod.fst tbl).Perm ["error", "result"] := by
          intro hperm
          exact hmem (hperm.mem_iff.mpr (by simp))
        refine ⟨?_, ?_, ?_, ?_⟩
        · constructor
          · intro _
            exact Or.inl hnp
          · intro _
            exact ⟨"response is missing required result field",
              by simp [invokeDecode, hlen, hE, hR]⟩
        · intro v hperm
          exact absurd hperm hnp
        · intro s hs
          rfl
        · intro r hperm
          exact absurd hperm hnp
      · have hperm : (List.map Prod.fst tbl).Perm ["error", "result"] := by
          refine keys_perm_of tbl hnd hlen ?_ ?_
          · rw [← lookup_isSome_iff]
            simp [hE]
          · rw [← lookup_isSome_iff]
            simp [hR]
        by_cases hv : v = JValue.null
        · subst hv
          have hok := invokeDecode_ok tbl r hlen hE hR
          refine ⟨?_, ?_, ?_, ?_⟩
          · constructor
            · intro ⟨e, he⟩
              rw [hok] at he
              exact absurd he (by simp)
            · intro h
              rcases h with h | ⟨w, hw, hwne⟩
              · exact absurd hperm h
              · exact absurd (Option.some_injective _ hw).symm hwne
          · intro w _ hw hwne
            exact absurd (Option.some_injective _ hw).symm hwne
          · intro s hs
            rfl
          · intro r2 _ _ hR2
            rw [← Option.some_injective _ hR2]
            exact hok
        · have herr := invokeDecode_err tbl v r hlen hE hR hv
          refine ⟨?_, ?_, ?_, ?_⟩
          · constructor
            · intro _
              exact Or.inr ⟨v, rfl, hv⟩
            · intro _
              exact ⟨jvalueStr v, herr⟩
          · intro w _ hw hwne
            have hvw : v = w := Option.some_injective _ hw
            subst hvw
            refine ⟨herr, ?_⟩
            intro r2 hr2
            rw [herr] at hr2
            exact absurd hr2 (by simp)
          · intro s hs
            rfl
          · intro r2 _ hE2 _
            exact absurd (Option.some_injective _ hE2) hv
  · have hnp : ¬ (List.map Prod.fst tbl).Perm ["error", "result"] := by
      intro hperm
      exact hlen (perm_facts tbl hperm).1
    refine ⟨?_, ?_, ?_, ?_⟩
    · constructor
      · intro _
        exact Or.inl hnp
      · intro _
        exact ⟨"response has an unexpected number of fields", by simp [invokeDecode, hlen]⟩
    · intro v hperm
      exact absurd hperm hnp
    · intro s hs
      rfl
    · intro r hperm
      exact absurd hperm hnp

/-- C2 witness: a two-field envelope with a string error fails with exactly
that text, and a two-field envelope with a null error returns the result. -/
theorem invoke_response_envelope_witness :
    invokeDecode [("error", JValue.str "boom"), ("result", JValue.null)] =
      Except.error "boom" ∧
    invokeDecode [("error", JValue.null), ("result", JValue.num 7)] =
      Except.ok (JValue.num 7) := by
  constructor
  · have h := ((invoke_response_envelope
      [("error", JValue.str "boom"), ("result", JValue.null)] (by decide)).2.1
      (JValue.str "boom") (by decide) rfl (by intro hc; cases hc)).1
    exact h
  · exact (invoke_response_envelope
      [("error", JValue.null), ("result", JValue.num 7)] (by decide)).2.2.2
      (JValue.num 7) (by decide) rfl rfl

lemma invoke_no_browse (env : Env) (url : String) (params : List (String × JValue)) :
    List.countP isGuiBrowsePost (invoke_anki_connect env url "addNote" params).1 = 0 := by
  cases h : env.postStatus url "addNote" params <;>
    simp [invoke_anki_connect, h, isGuiBrowsePost, List.countP_cons]

lemma invoke_one_browse (env : Env) (url : String) (params : List (String × JValue)) :
    List.countP isGuiBrowsePost (invoke_anki_connect env url "guiBrowse" params).1 = 1 := by
  cases h : env.postStatus url "guiBrowse" params <;>
    simp [invoke_anki_connect, h, isGuiBrowsePost, List.countP_cons]

lemma invoke_no_reads (env : Env) (url action : String) (params : List (String × JValue)) :
    List.countP isReadConfig (invoke_anki_connect env url action params).1 = 0 := by
  cases h : env.postStatus url action params <;>
    simp [invoke_anki_connect, h, isReadConfig, List.countP_cons]

lemma create_no_browse (env : Env) (module : String) (python_version : Int) :
    List.countP isGuiBrowsePost (create_synopsis_note env module python_version).1 = 0 := by
  rcases hg : env.getResp (docsUrl python_version module) with e | body
  · simp [create_synopsis_note, hg, isGuiBrowsePost, List.countP_cons]
  · rcases hs : get_synopsis (env.findH1 body) with e | syn
    · simp [create_synopsis_note, hg, hs, isGuiBrowsePost, List.countP_cons]
    · simp [create_synopsis_note, hg, hs, add_synopsis_anki_note, add_anki_note,
        get_config, isGuiBrowsePost, List.countP_cons, List.countP_append, invoke_no_browse]

lemma add_synopsis_reads (env : Env) (synopsis module link : String) :
    List.countP isReadConfig (add_synopsis_anki_note env synopsis module link).1 = 1 := by
  simp [add_synopsis_anki_note, add_anki_note, get_config, isReadConfig,
    List.countP_cons, List.countP_append, invoke_no_reads]

lemma create_reads_of_ok_none (env : Env) (module : String) (python_version : Int)
    (h : (create_synopsis_note env module python_version).2 = Except.ok none) :
    List.countP isReadConfig (create_synopsis_note env module python_version).1 = 0 := by
  rcases hg : env.getResp (docsUrl python_version module) with e | body
  · simp [create_synopsis_note, hg, isReadConfig, List.countP_cons]
  · rcases hs : get_synopsis (env.findH1 body) with e | syn
    · rw [create_synopsis_note] at h
      simp [hg, hs] at h
    · rw [create_synopsis_note] at h
      rcases ha : (add_synopsis_anki_note env syn module (docsUrl python_version module)).2
        with e2 | idv
      · simp [hg, hs, ha, Except.map] at h
      · simp [hg, hs, ha, Except.map] at h

lemma create_reads_of_ok_some (env : Env) (module : String) (python_version : Int)
    (id : JValue)
    (h : (create_synopsis_note env module python_version).2 = Except.ok (some id)) :
    List.countP isReadConfig (create_synopsis_note env module python_version).1 = 1 := by
  rcases hg : env.getResp (docsUrl python_version module) with e | body
  · rw [create_synopsis_note] at h
    simp [hg] at h
  · rcases hs : get_synopsis (env.findH1 body) with e | syn
    · rw [create_synopsis_note] at h
      simp [hg, hs] at h
    · simp [create_synopsis_note, hg, hs, isReadConfig, List.countP_cons,
        add_synopsis_reads]

lemma mainLoop_no_browse (env : Env) (python_version : Int) :
    ∀ (ms : List String) (acc : List JValue),
      List.countP isGuiBrowsePost (mainLoop env python_version ms acc).1 = 0 := by
  intro ms
  induction ms with
  | nil =>
    intro acc
    simp [mainLoop]
  | cons m rest ih =>
    intro acc
    rcases hc : (create_synopsis_note env m python_version).2 with e | o
    · simp [mainLoop, hc, create_no_browse]
    · rcases o with _ | id
      · simp [mainLoop, hc, create_no_browse, List.countP_append, ih]
      · simp [mainLoop, hc, create_no_browse, List.countP_append, List.countP_cons,
          isGuiBrowsePost, ih]

lemma mainLoop_reads (env : Env) (python_version : Int) :
    ∀ (ms : List String) (acc ids : List JValue),
      (mainLoop env python_version ms acc).2 = Except.ok ids →
      acc.length + List.countP isReadConfig (mainLoop env python_version ms acc).1 =
        ids.length := by
  intro ms
  induction ms with
  | nil =>
    intro acc ids h
    simp [mainLoop] at h
    subst h
    simp [mainLoop]
  | cons m rest ih =>
    intro acc ids h
    rcases hc : (create_synopsis_note env m python_version).2 with e | o
    · rw [mainLoop] at h
      simp [hc] at h
    · rcases o with _ | id
      · rw [mainLoop] at h
        simp [hc] at h
        have h2 := ih acc ids h
        simp [mainLoop, hc, List.countP_append,
          create_reads_of_ok_none env m python_version hc]
        omega
      · rw [mainLoop] at h
        simp [hc] at h
        have h2 := ih (acc ++ [id]) ids h
        simp at h2
        simp [mainLoop, hc, List.countP_append, List.countP_cons, isReadConfig,
          create_reads_of_ok_some env m python_version id hc]
        omega

lemma gui_browse_one_browse (env : Env) (ids : List JValue) :
    List.countP isGuiBrowsePost (gui_browse_notes env ids).1 = 1 := by
  simp [gui_browse_notes, get_config, List.countP_append, List.countP_cons,
    isGuiBrowsePost, invoke_one_browse]

lemma gui_browse_reads (env : Env) (ids : List JValue) :
    List.countP isReadConfig (gui_browse_notes env ids).1 = 1 := by
  simp [gui_browse_notes, get_config, List.countP_append, List.countP_cons,
    isReadConfig, invoke_no_reads]

/-- C3: a raised HTTP-status error on a module's documentation fetch prints
exactly one diagnostic, creates no note and appends nothing (the whole
effect of the module is the GET and the printed line, and its result is
None), and the loop continues with the remaining modules on the unchanged
accumulator instead of aborting. -/
theorem fetch_failure_skips (env : Env) (module : String) (rest : List String)
    (acc : List JValue) (python_version : Int) (e : String)
    (h : env.getResp (docsUrl python_version module) = Except.error e) :
    create_synopsis_note env module python_version =
      ([Event.httpGet (docsUrl python_version module),
        Event.printLine ("Failed to get docs for " ++ module ++ ": " ++ e)],
       Except.ok none) ∧
    mainLoop env python_version (module :: rest) acc =
      ([Event.httpGet (docsUrl python_version module),
        Event.printLine ("Failed to get docs for " ++ module ++ ": " ++ e)] ++
         (mainLoop env python_version rest acc).1,
       (mainLoop env python_version rest acc).2) := by
  have hc : create_synopsis_note env module python_version =
      ([Event.httpGet (docsUrl python_version module),
        Event.printLine ("Failed to get docs for " ++ module ++ ": " ++ e)],
       Except.ok none) := by
    simp [create_synopsis_note, h]
  refine ⟨hc, ?_⟩
  rw [mainLoop]
  simp [hc]

/-- C3 witness: in an environment whose every fetch fails with a 404, the
one-module run prints the diagnostic, creates nothing and continues. -/
theorem fetch_failure_skips_witness :
    create_synopsis_note envFetchFail "mod" 3 =
      ([Event.httpGet (docsUrl 3 "mod"),
        Event.printLine ("Failed to get docs for " ++ "mod" ++ ": " ++ "404 Client Error")],
       Except.ok none) ∧
    mainLoop envFetchFail 3 ["mod"] [] =
      ([Event.httpGet (docsUrl 3 "mod"),
        Event.printLine ("Failed to get docs for " ++ "mod" ++ ": " ++ "404 Client Error")] ++
         (mainLoop envFetchFail 3 [] []).1,
       (mainLoop envFetchFail 3 [] []).2) :=
  fetch_failure_skips envFetchFail "mod" [] [] 3 "404 Client Error" rfl

/-- C4: whenever the module loop completes with accumulated ids, the run
performs the whole loop and then the browse call, the loop itself issues no
guiBrowse POST, the full run issues exactly one, and that call reads the
config and posts the query nid: followed by the comma-joined str of the ids
in accumulation order. -/
theorem browse_call_once (env : Env) (modules : List String) (python_version : Int)
    (ids : List JValue)
    (h : (mainLoop env python_version modules []).2 = Except.ok ids) :
    (main env modules python_version).1 =
      (mainLoop env python_version modules []).1 ++ (gui_browse_notes env ids).1 ∧
    List.countP isGuiBrowsePost (mainLoop env python_version modules []).1 = 0 ∧
    List.countP isGuiBrowsePost (main env modules python_version).1 = 1 ∧
    List.take 2 (gui_browse_notes env ids).1 =
      [Event.readConfig,
       Event.post env.config.ankiConnectUrl "guiBrowse"
         [("query", JValue.str ("nid:" ++ String.intercalate "," (List.map jvalueStr ids)))]] := by
  have h1 : (main env modules python_version).1 =
      (mainLoop env python_version modules []).1 ++ (gui_browse_notes env ids).1 := by
    rw [main]
    simp [h]
  refine ⟨h1, mainLoop_no_browse env python_version modules [], ?_, ?_⟩
  · rw [h1, List.countP_append, mainLoop_no_browse, gui_browse_one_browse]
  · cases hp : env.postStatus env.config.ankiConnectUrl "guiBrowse"
      [("query", JValue.str ("nid:" ++ String.intercalate "," (List.map jvalueStr ids)))] <;>
      simp [gui_browse_notes, invoke_anki_connect, get_config, hp]

/-- C4 witness: a run over an empty module list still issues the browse call
once, with the query string nid: built from the empty accumulator. -/
theorem browse_call_once_witness :
    (main envOk [] 3).1 = (mainLoop envOk 3 [] []).1 ++ (gui_browse_notes envOk []).1 ∧
    List.countP isGuiBrowsePost (mainLoop envOk 3 [] []).1 = 0 ∧
    List.countP isGuiBrowsePost (main envOk [] 3).1 = 1 ∧
    List.take 2 (gui_browse_notes envOk []).1 =
      [Event.readConfig,
       Event.post "http://localhost:8765" "guiBrowse" [("query", JValue.str "nid:")]] := by
  have h := browse_call_once envOk [] 3 [] rfl
  exact ⟨h.1, h.2.1, h.2.2.1, h.2.2.2.trans rfl⟩

/-- C6: when the module loop aborts with an exception (in particular a note
submission failure), main propagates exactly that error and performs no
further effect, so no guiBrowse call is ever issued; moreover inside the
loop a failing create_synopsis_note stops processing at that module, while a
successful one appends the returned id to the accumulator before the
remaining modules run. -/
theorem submission_failure_fatal (env : Env) (modules : List String)
    (python_version : Int) (e : String)
    (h : (mainLoop env python_version modules []).2 = Except.error e) :
    main env modules python_version =
      ((mainLoop env python_version modules []).1, Except.error e) ∧
    List.countP isGuiBrowsePost (main env modules python_version).1 = 0 ∧
    (∀ m rest acc e2, (create_synopsis_note env m python_version).2 = Except.error e2 →
       mainLoop env python_version (m :: rest) acc =
         ((create_synopsis_note env m python_version).1, Except.error e2)) ∧
    (∀ m rest acc id, (create_synopsis_note env m python_version).2 = Except.ok (some id) →
       mainLoop env python_version (m :: rest) acc =
         ((create_synopsis_note env m python_version).1 ++
            Event.printLine ("Added synopsis note for " ++ m ++ ": " ++ jvalueStr id) ::
              (mainLoop env python_version rest (acc ++ [id])).1,
          (mainLoop env python_version rest (acc ++ [id])).2)) := by
  have h1 : main env modules python_version =
      ((mainLoop env python_version modules []).1, Except.error e) := by
    rw [main]
    simp [h]
  refine ⟨h1, ?_, ?_, ?_⟩
  · rw [h1]
    exact mainLoop_no_browse env python_version modules []
  · intro m rest acc e2 hc
    rw [mainLoop]
    simp [hc]
  · intro m rest acc id hc
    rw [mainLoop]
    simp [hc]

/-- C6 witness: with AnkiConnect reporting a duplicate on addNote, the
one-module run aborts with exactly that message and never browses. -/
theorem submission_failure_fatal_witness :
    main envSubFail ["m"] 3 =
      ((mainLoop envSubFail 3 ["m"] []).1, Except.error "duplicate") ∧
    List.countP isGuiBrowsePost (main envSubFail ["m"] 3).1 = 0 := by
  have h := submission_failure_fatal envSubFail ["m"] 3 "duplicate" rfl
  exact ⟨h.1, h.2.1⟩

/-- C7 counterexample: with two modules and every step succeeding, the
completed run reads the configuration file three times, not the two times
the specification asserts. -/
theorem config_read_twice_counterexample :
    List.countP isReadConfig (main envOk ["a", "b"] 3).1 = 3 ∧
    List.countP isReadConfig (main envOk ["a", "b"] 3).1 ≠ 2 := by
  have h : List.countP isReadConfig (main envOk ["a", "b"] 3).1 = 3 := rfl
  exact ⟨h, by rw [h]; decide⟩

/-- C7 as amended: in a run whose module loop completes, the configuration
file is read once per successfully created note plus once for the browse
call; it is read exactly twice only when exactly one note is created, not
regardless of the number of modules. -/
theorem config_reads_count (env : Env) (modules : List String) (python_version : Int)
    (ids : List JValue)
    (h : (mainLoop env python_version modules []).2 = Except.ok ids) :
    List.countP isReadConfig (main env modules python_version).1 = ids.length + 1 := by
  have h1 : (main env modules python_version).1 =
      (mainLoop env python_version modules []).1 ++ (gui_browse_notes env ids).1 := by
    rw [main]
    simp [h]
  rw [h1, List.countP_append, gui_browse_reads]
  have h2 := mainLoop_reads env python_version modules [] ids h
  simp at h2
  rw [h2]

/-- C7 amended-claim witness: a completed one-module run reads the
configuration twice. -/
theorem config_reads_count_witness :
    List.countP isReadConfig (main envOk ["a"] 3).1 = 2 := by
  have h := config_reads_count envOk ["a"] 3 [JValue.num 101] rfl
  exact h

/-- C8: the note submitted for an extracted synopsis carries exactly the
configured tag set and exactly the fields Front = synopsis, Back = module,
Hint = configured hint, Back Extra = empty, Links = documentation url,
Reverse = empty, inside a single addNote invocation preceded by the config
read. -/
theorem note_fields_exact (env : Env) (synopsis module link : String) :
    add_synopsis_anki_note env synopsis module link =
      (Event.readConfig ::
         (invoke_anki_connect env env.config.ankiConnectUrl "addNote"
            [("note", JValue.obj
               [("deckName", JValue.str env.config.ankiDeck),
                ("modelName", JValue.str env.config.ankiModel),
                ("fields", JValue.obj
                   [("Front", JValue.str synopsis),
                    ("Back", JValue.str module),
                    ("Hint", JValue.str env.config.hintSynopsis),
                    ("Back Extra", JValue.str ""),
                    ("Links", JValue.str link),
                    ("Reverse", JValue.str "")]),
                ("tags", JValue.arr (List.map JValue.str env.config.tagsSynopsis))])]).1,
       (invoke_anki_connect env env.config.ankiConnectUrl "addNote"
          [("note", JValue.obj
             [("deckName", JValue.str env.config.ankiDeck),
              ("modelName", JValue.str env.config.ankiModel),
              ("fields", JValue.obj
                 [("Front", JValue.str synopsis),
                  ("Back", JValue.str module),
                  ("Hint", JValue.str env.config.hintSynopsis),
                  ("Back Extra", JValue.str ""),
                  ("Links", JValue.str link),
                  ("Reverse", JValue.str "")]),
              ("tags", JValue.arr (List.map JValue.str env.config.tagsSynopsis))])]).2) :=
  rfl

/-- C9: a raised HTTP-status error on the AnkiConnect POST only adds a
printed line to the trace; invoke still decodes the response body, so its
outcome is invokeDecode of that body, exactly as without the status
error. -/
theorem invoke_status_error_nonfatal (env : Env) (url action : String)
    (params : List (String × JValue)) (e : String)
    (h : env.postStatus url action params = some e) :
    invoke_anki_connect env url action params =
      ([Event.post url action params,
        Event.printLine ("Error getting response from AnkiConnect: " ++ e)],
       invokeDecode (env.postBody url action params)) := by
  simp [invoke_anki_connect, h]

/-- C9 witness: with a 500 status but a valid success body, invoke prints
the transport error and still returns the result value. -/
theorem invoke_status_error_nonfatal_witness :
    invoke_anki_connect envStatusErr "u" "a" [] =
      ([Event.post "u" "a" [],
        Event.printLine ("Error getting response from AnkiConnect: " ++ "500 Server Error")],
       Except.ok (JValue.num 7)) := by
  have h := invoke_status_error_nonfatal envStatusErr "u" "a" [] "500 Server Error" rfl
  exact h.trans rfl

end PythonModuleToAnki
